import Mathlib

/-!
Verification of the AutoHost Session & Script Execution Core.

This file is a shallow embedding of the Python backend:
  - `backend/app/services/terminal_service.py` (TerminalSession, TerminalManager)
  - `backend/app/api/automation.py` (execute_script, execute_step)
  - `backend/app/api/connections.py` (connect_terminal)
  - `backend/app/schemas/automation.py` (ActionType, AutomationStep, ...)

The external Terminal Protocol Driver (the `tnz.py3270.Emulator` handle) is not
part of this repository; it is modelled from the spec's interface contract
(spec section 6) as a deterministic machine `DriverWorld` that records every
driver call in a trace, holds the set of allocated handles, and whose
success/failure behaviour and screen contents are given by a `DriverConfig`
oracle.  Python exceptions are modelled by `PyResult`: state mutations made
before an exception persist, exactly as object mutation does in Python.
Wall-clock effects (time.sleep, asyncio.sleep, timestamps) and debug prints
are not modelled; they change no program-visible state used by any claim.
-/

/-- Result of a Python call: normal return or a raised exception message.
State threaded alongside a `PyResult` persists even when an exception is
raised, matching Python object mutation. -/
inductive PyResult (α : Type) where
  | ok (val : α)
  | exn (msg : String)
deriving DecidableEq, Repr

/-- Decimal digits to a number, `none` on a non-digit (helper for `pyInt?`). -/
def natOfDigitsAux : List Char → Nat → Option Nat
  | [], acc => some acc
  | c :: rest, acc =>
    if c.isDigit then natOfDigitsAux rest (acc * 10 + (c.toNat - 48)) else none

/-- Python `int(s)`: models `int()` on the strings arising here (an optional
minus sign followed by decimal digits); `none` models the raised ValueError. -/
def pyInt? (s : String) : Option Int :=
  match s.toList with
  | [] => none
  | c :: rest =>
    if c = '-' then
      match rest with
      | [] => none
      | _ => (natOfDigitsAux rest 0).map (fun n => -(n : Int))
    else (natOfDigitsAux (c :: rest) 0).map (fun n => (n : Int))

/-- Python `int(q)` on a non-integer number: truncation toward zero.
Timeouts are modelled as rationals (the literals in the source are exact). -/
def pyIntRat (q : ℚ) : Int :=
  q.num.tdiv (q.den : Int)

/-- Python `opt or default` for strings: `None` and `""` are falsy. -/
def pyOrStr (o : Option String) (d : String) : String :=
  match o with
  | none => d
  | some s => if s = "" then d else s

/-- Python `opt or default` for numbers: `None` and `0` are falsy. -/
def pyOrRat (o : Option ℚ) (d : ℚ) : ℚ :=
  match o with
  | none => d
  | some q => if q = 0 then d else q

/-- Python f-string rendering of an optional string (`None` prints as "None"). -/
def pyShowOptStr (o : Option String) : String :=
  match o with
  | none => "None"
  | some s => s

/-- Whitespace splitter (helper for `pySplit`); the second argument holds
the characters of the current piece in reverse. -/
def pySplitChars : List Char → List Char → List String
  | [], cur => if cur.isEmpty then [] else [String.mk cur.reverse]
  | c :: rest, cur =>
    if c.isWhitespace then
      (if cur.isEmpty then [] else [String.mk cur.reverse]) ++ pySplitChars rest []
    else pySplitChars rest (c :: cur)

/-- Python `str.split()` with no argument: split on whitespace runs,
dropping empty pieces. -/
def pySplit (s : String) : List String :=
  pySplitChars s.toList []

/-- Python `str.lower()` (ASCII, which covers every key name here). -/
def pyLower (s : String) : String :=
  String.mk (s.toList.map Char.toLower)

/-- Python `str.startswith(pre)`. -/
def pyStartsWith (s pre : String) : Bool :=
  pre.toList.isPrefixOf s.toList

/-- Python slicing `s[n:]`. -/
def pyDrop (s : String) (n : Nat) : String :=
  String.mk (s.toList.drop n)

/-- Python `sep.join(xs)`. -/
def pyJoin (sep : String) : List String → String
  | [] => ""
  | [x] => x
  | x :: rest => x ++ sep ++ pyJoin sep rest

/-- Helper for Python `needle in hay`: infix test on character lists. -/
def containsSub (needle : List Char) : List Char → Bool
  | [] => needle.isEmpty
  | c :: rest => needle.isPrefixOf (c :: rest) || containsSub needle rest

/-- Python `needle in hay` on strings. -/
def pyInStr (needle hay : String) : Bool :=
  containsSub needle.toList hay.toList

/-- One call made to the Terminal Protocol Driver (tnz Emulator method),
with the arguments exactly as the Python code passes them. -/
inductive DriverCall where
  | connectCall (hid : Nat) (host_string : String)
  | disconnectCall (hid : Nat)
  | waitOutput (hid : Nat) (timeout : Nat)
  | enterKey (hid : Nat)
  | pfKey (hid : Nat) (n : Int)
  | paKey (hid : Nat) (n : Int)
  | clearKey (hid : Nat)
  | tabKey (hid : Nat)
  | backtabKey (hid : Nat)
  | keyName (hid : Nat) (k : String)
  | stringCall (hid : Nat) (text : String)
  | moveCall (hid : Nat) (row1 : Nat) (col1 : Nat)
  | queryCall (hid : Nat) (arg : String)
  | asciiCall (hid : Nat)
  | expectCall (hid : Nat) (text : String) (timeout : Int)
deriving DecidableEq, Repr

/-- A Driver handle (one `Emulator` object): its identity, whether the
connection it wraps is open, and its cursor position in the driver's
internal 0-indexed coordinates. -/
structure Handle where
  hid : Nat
  openFlag : Bool
  cursorRow : Nat
  cursorCol : Nat
deriving DecidableEq, Repr

/-- Modelled from the spec: behaviour oracle for the external Driver
(spec section 6).  Failure flags say which calls raise; `expectFinds` says
whether an `Expect(text, timeout)` call succeeds; `moveInputOffset` and
`reportOffset` give the driver's indexing convention (the spec's section 6
contract is 1-indexed on both sides: both offsets are 1); `rows`, `cols`
and `screenLines` describe the screen the driver reports. -/
structure DriverConfig where
  connectFails : Bool
  waitOutputFails : Bool
  enterFails : Bool
  pfFails : Int → Bool
  paFails : Int → Bool
  clearFails : Bool
  tabFails : Bool
  backtabFails : Bool
  keyFails : String → Bool
  stringFails : String → Bool
  moveFails : Bool
  queryFails : Bool
  asciiFails : Bool
  expectFinds : String → Int → Bool
  moveInputOffset : Nat
  reportOffset : Nat
  rows : Nat
  cols : Nat
  screenLines : List String

/-- The world of the external Driver: its behaviour, every handle ever
allocated (handles outlive the sessions that reference them), a fresh-id
counter, and the trace of all driver calls made so far. -/
structure DriverWorld where
  cfg : DriverConfig
  handles : List Handle
  nextId : Nat
  trace : List DriverCall

/-- Append one driver call to the world's trace. -/
def addCall (w : DriverWorld) (c : DriverCall) : DriverWorld :=
  { w with trace := w.trace ++ [c] }

/-- Look up a handle by id (ids handed to sessions always exist). -/
def getHandle (w : DriverWorld) (hid : Nat) : Handle :=
  (w.handles.find? (fun h => h.hid == hid)).getD ⟨hid, false, 0, 0⟩

/-- Update the handle with the given id. -/
def setHandle (w : DriverWorld) (hid : Nat) (f : Handle → Handle) : DriverWorld :=
  { w with handles := w.handles.map (fun h => if h.hid == hid then f h else h) }

/-- The status line the driver's `Query('Cursor')` reports, with the cursor
position shifted by the driver's report convention
(format per the comment in `get_screen_data`). -/
def statusLine (cfg : DriverConfig) (h : Handle) : String :=
  "L U U N N ? " ++ toString cfg.rows ++ " " ++ toString cfg.cols ++ " " ++
    toString (h.cursorRow + cfg.reportOffset) ++ " " ++
    toString (h.cursorCol + cfg.reportOffset) ++ " 0x00 -"

/-- Model of `Emulator(visible=False)`: allocate a fresh, not yet connected handle. -/
def emuNew (w : DriverWorld) : Nat × DriverWorld :=
  (w.nextId,
   { w with nextId := w.nextId + 1,
            handles := w.handles ++ [⟨w.nextId, false, 0, 0⟩] })

/-- Model of `Emulator.Connect(host_string)`: opens the handle, or raises. -/
def emuConnect (w : DriverWorld) (hid : Nat) (host_string : String) :
    PyResult Unit × DriverWorld :=
  let w1 := addCall w (.connectCall hid host_string)
  if w.cfg.connectFails then (.exn ("Connection failed: " ++ host_string), w1)
  else (.ok (), setHandle w1 hid (fun h => { h with openFlag := true }))

/-- Model of `Emulator.Disconnect()`: idempotent and never raises
(Modelled from the spec: driverDisconnect contract, section 6). -/
def emuDisconnect (w : DriverWorld) (hid : Nat) : DriverWorld :=
  setHandle (addCall w (.disconnectCall hid)) hid (fun h => { h with openFlag := false })

/-- Model of `Emulator.Wait('Output', timeout)`. -/
def emuWaitOutput (w : DriverWorld) (hid : Nat) (t : Nat) : PyResult Unit × DriverWorld :=
  let w1 := addCall w (.waitOutput hid t)
  if w.cfg.waitOutputFails then (.exn "Wait Output failed", w1) else (.ok (), w1)

/-- Model of `Emulator.Enter()`. -/
def emuEnter (w : DriverWorld) (hid : Nat) : PyResult Unit × DriverWorld :=
  let w1 := addCall w (.enterKey hid)
  if w.cfg.enterFails then (.exn "Enter failed", w1) else (.ok (), w1)

/-- Model of `Emulator.PF(n)`. -/
def emuPF (w : DriverWorld) (hid : Nat) (n : Int) : PyResult Unit × DriverWorld :=
  let w1 := addCall w (.pfKey hid n)
  if w.cfg.pfFails n then (.exn "PF failed", w1) else (.ok (), w1)

/-- Model of `Emulator.PA(n)`. -/
def emuPA (w : DriverWorld) (hid : Nat) (n : Int) : PyResult Unit × DriverWorld :=
  let w1 := addCall w (.paKey hid n)
  if w.cfg.paFails n then (.exn "PA failed", w1) else (.ok (), w1)

/-- Model of `Emulator.Clear()`. -/
def emuClear (w : DriverWorld) (hid : Nat) : PyResult Unit × DriverWorld :=
  let w1 := addCall w (.clearKey hid)
  if w.cfg.clearFails then (.exn "Clear failed", w1) else (.ok (), w1)

/-- Model of `Emulator.Tab()`. -/
def emuTab (w : DriverWorld) (hid : Nat) : PyResult Unit × DriverWorld :=
  let w1 := addCall w (.tabKey hid)
  if w.cfg.tabFails then (.exn "Tab failed", w1) else (.ok (), w1)

/-- Model of `Emulator.BackTab()`. -/
def emuBackTab (w : DriverWorld) (hid : Nat) : PyResult Unit × DriverWorld :=
  let w1 := addCall w (.backtabKey hid)
  if w.cfg.backtabFails then (.exn "BackTab failed", w1) else (.ok (), w1)

/-- Model of `Emulator.Key(name)`: last-resort named key. -/
def emuKey (w : DriverWorld) (hid : Nat) (k : String) : PyResult Unit × DriverWorld :=
  let w1 := addCall w (.keyName hid k)
  if w.cfg.keyFails k then (.exn "Key failed", w1) else (.ok (), w1)

/-- Model of `Emulator.String(text)`. -/
def emuString (w : DriverWorld) (hid : Nat) (t : String) : PyResult Unit × DriverWorld :=
  let w1 := addCall w (.stringCall hid t)
  if w.cfg.stringFails t then (.exn "String failed", w1) else (.ok (), w1)

/-- Model of `Emulator.MoveCursor(a, b)`: the driver interprets its arguments per its
input convention (`moveInputOffset`, 1 under the spec's section 6 contract)
and stores the 0-indexed internal position. -/
def emuMoveCursor (w : DriverWorld) (hid : Nat) (a b : Nat) : PyResult Unit × DriverWorld :=
  let w1 := addCall w (.moveCall hid a b)
  if w.cfg.moveFails then (.exn "MoveCursor failed", w1)
  else (.ok (), setHandle w1 hid (fun h =>
    { h with cursorRow := a - w.cfg.moveInputOffset,
             cursorCol := b - w.cfg.moveInputOffset }))

/-- Model of `Emulator.Query(arg)`: for `'Cursor'` returns a status list whose second
line carries dimensions and the cursor position in the driver's report
convention; for other arguments a bare status list. -/
def emuQuery (w : DriverWorld) (hid : Nat) (arg : String) :
    PyResult (List String) × DriverWorld :=
  let w1 := addCall w (.queryCall hid arg)
  if w.cfg.queryFails then (.exn "Query failed", w1)
  else if arg = "Cursor" then (.ok ["", statusLine w.cfg (getHandle w hid)], w1)
  else (.ok [""], w1)

/-- Model of `Emulator.Ascii()`: the raw screen lines (possibly carrying the
`data: ` prefixes and status lines the Python code strips). -/
def emuAscii (w : DriverWorld) (hid : Nat) : PyResult (List String) × DriverWorld :=
  let w1 := addCall w (.asciiCall hid)
  if w.cfg.asciiFails then (.exn "Ascii failed", w1) else (.ok w.cfg.screenLines, w1)

/-- Model of `Emulator.Expect(text, timeout)`: returns normally when the text shows
up within the timeout, raises otherwise. -/
def emuExpect (w : DriverWorld) (hid : Nat) (text : String) (t : Int) :
    PyResult Unit × DriverWorld :=
  let w1 := addCall w (.expectCall hid text t)
  if w.cfg.expectFinds text t then (.ok (), w1) else (.exn "Expect timeout", w1)

/-- Model of `ActionType` enum from `schemas/automation.py`. -/
inductive ActionType where
  | connect
  | send_text
  | send_key
  | move_cursor
  | wait
  | wait_for_text
  | read_screen
  | read_position
  | assert_text
  | screenshot
  | disconnect
deriving DecidableEq, Repr

/-- The string value of each `ActionType` member (the str-enum values,
which is what the log message f-string renders). -/
def actionValue : ActionType → String
  | .connect => "connect"
  | .send_text => "send_text"
  | .send_key => "send_key"
  | .move_cursor => "move_cursor"
  | .wait => "wait"
  | .wait_for_text => "wait_for_text"
  | .read_screen => "read_screen"
  | .read_position => "read_position"
  | .assert_text => "assert_text"
  | .screenshot => "screenshot"
  | .disconnect => "disconnect"

/-- Model of `AutomationStep` pydantic model.  The `params` and `description`
metadata fields are never read by the executor and are omitted.
`row`/`col` carry the model's `ge=0` constraint as `Nat`. -/
structure AutomationStep where
  id : String
  action : ActionType
  row : Option Nat
  col : Option Nat
  text : Option String
  key : Option String
  timeout : Option ℚ
deriving DecidableEq, Repr

/-- Model of `AutomationScript` pydantic model (persistence metadata fields
`name`, `description`, `created_at`, `updated_at` are never read by the
execution path and are omitted). -/
structure AutomationScript where
  id : String
  host : String
  port : Int
  use_tls : Bool
  steps : List AutomationStep
deriving DecidableEq, Repr

/-- Model of `ScreenData` pydantic model.  `fields` holds opaque dicts and is always
constructed empty by `get_screen_data`; the dict payload type is irrelevant. -/
structure ScreenData where
  session_id : String
  rows : Int
  cols : Int
  cursor_row : Int
  cursor_col : Int
  text : String
  fields : List Unit
deriving DecidableEq, Repr

/-- Model of `ExecutionLog` pydantic model.  The wall-clock `timestamp` and the
always-`None` `screenshot` field are not modelled. -/
structure ExecutionLog where
  step_id : String
  status : String
  message : String
deriving DecidableEq, Repr

/-- Model of `ConnectionRequest` pydantic model (the optional `session_id` field is
never read by `connect_terminal` and is omitted). -/
structure ConnectionRequest where
  host : String
  port : Int
  use_tls : Bool
deriving DecidableEq, Repr

/-- Model of `TerminalSession` object state: identity and connection fields.
`connection` holds the id of the owned Driver handle, if any. -/
structure TerminalSession where
  session_id : String
  host : String
  port : Int
  use_tls : Bool
  connection : Option Nat
  is_connected : Bool
deriving DecidableEq, Repr

namespace TerminalSession

/-- Lift a driver-call result into a session-op result, session unchanged. -/
def liftE (s : TerminalSession) (r : PyResult Unit × DriverWorld) :
    PyResult Unit × TerminalSession × DriverWorld :=
  (r.1, s, r.2)

/-- Model of `TerminalSession._sync_connect`: allocates the Emulator handle (stored on
the session before the connection attempt), builds the host string with the
`L:` TLS prefix, calls `Connect`, then runs the best-effort wake-up sequence
(`Wait('Output')`, falling back to `Enter()`; then `PF(1)`; then the debug
`Query()`/`Ascii()` pair), every wake-up failure swallowed by its
`try/except`. -/
def _sync_connect (s : TerminalSession) (w : DriverWorld) :
    PyResult Unit × TerminalSession × DriverWorld :=
  let r0 := emuNew w
  let hid := r0.1
  let w0 := r0.2
  let s1 := { s with connection := some hid }
  let host_string := (if s.use_tls then "L:" else "") ++ s.host ++ ":" ++ toString s.port
  match emuConnect w0 hid host_string with
  | (.exn e, w1) => (.exn e, s1, w1)
  | (.ok _, w1) =>
    let w2 :=
      match emuWaitOutput w1 hid 5 with
      | (.ok _, wA) => wA
      | (.exn _, wA) => (emuEnter wA hid).2
    let w3 := (emuPF w2 hid 1).2
    let w4 :=
      match emuQuery w3 hid "" with
      | (.ok _, wB) => (emuAscii wB hid).2
      | (.exn _, wB) => wB
    (.ok (), s1, w4)

/-- Model of `TerminalSession.connect`: runs `_sync_connect`; on success sets
`is_connected`; on failure re-raises with the wrapped message (the handle
assigned inside `_sync_connect` persists on the session either way). -/
def connect (s : TerminalSession) (w : DriverWorld) :
    PyResult Unit × TerminalSession × DriverWorld :=
  match _sync_connect s w with
  | (.ok _, s1, w1) => (.ok (), { s1 with is_connected := true }, w1)
  | (.exn e, s1, w1) =>
    (.exn ("Failed to connect to " ++ s.host ++ ":" ++ toString s.port ++ " - " ++ e), s1, w1)

/-- Model of `TerminalSession.disconnect`: if a handle exists, calls the driver's
`Disconnect` and clears `is_connected`; the handle itself is NOT cleared
(`self.connection` is never reset in the source). -/
def disconnect (s : TerminalSession) (w : DriverWorld) :
    PyResult Unit × TerminalSession × DriverWorld :=
  match s.connection with
  | none => (.ok (), s, w)
  | some hid => (.ok (), { s with is_connected := false }, emuDisconnect w hid)

/-- Model of `TerminalSession.send_text`: guarded by `if not self.connection`;
moves the cursor first (with the `+1` 0-to-1-indexed conversion) when both
coordinates are given, then sends the text. -/
def send_text (s : TerminalSession) (w : DriverWorld) (text : String)
    (row col : Option Nat) : PyResult Unit × TerminalSession × DriverWorld :=
  match s.connection with
  | none => (.exn "Not connected", s, w)
  | some hid =>
    match row, col with
    | some r, some c =>
      match emuMoveCursor w hid (r + 1) (c + 1) with
      | (.exn e, w1) => (.exn e, s, w1)
      | (.ok _, w1) => liftE s (emuString w1 hid text)
    | _, _ => liftE s (emuString w hid text)

/-- Model of `TerminalSession.send_key`: dispatches on the lower-cased key name;
`pf`/`pa` prefixes parse the remainder with `int()` (raising on a bad
remainder); unmatched names fall through to the driver's `Key` with the
ORIGINAL (not lower-cased) string. -/
def send_key (s : TerminalSession) (w : DriverWorld) (key : String) :
    PyResult Unit × TerminalSession × DriverWorld :=
  match s.connection with
  | none => (.exn "Not connected", s, w)
  | some hid =>
    let key_lower := pyLower key
    if key_lower = "enter" then liftE s (emuEnter w hid)
    else if pyStartsWith key_lower "pf" then
      match pyInt? (pyDrop key_lower 2) with
      | none =>
        (.exn ("invalid literal for int() with base 10: \x27" ++ pyDrop key_lower 2 ++ "\x27"), s, w)
      | some num => liftE s (emuPF w hid num)
    else if pyStartsWith key_lower "pa" then
      match pyInt? (pyDrop key_lower 2) with
      | none =>
        (.exn ("invalid literal for int() with base 10: \x27" ++ pyDrop key_lower 2 ++ "\x27"), s, w)
      | some num => liftE s (emuPA w hid num)
    else if key_lower = "clear" then liftE s (emuClear w hid)
    else if key_lower = "tab" then liftE s (emuTab w hid)
    else if key_lower = "backtab" then liftE s (emuBackTab w hid)
    else liftE s (emuKey w hid key)

/-- Model of `TerminalSession.move_cursor`: converts the 0-indexed API coordinates
to 1-indexed driver arguments. -/
def move_cursor (s : TerminalSession) (w : DriverWorld) (row col : Nat) :
    PyResult Unit × TerminalSession × DriverWorld :=
  match s.connection with
  | none => (.exn "Not connected", s, w)
  | some hid => liftE s (emuMoveCursor w hid (row + 1) (col + 1))

/-- Model of `TerminalSession.get_screen_data._get_data` parsing of the four numeric
status fields: sequential `int()` assignments inside one `try`, keeping the
values assigned before the first parse failure (`except: pass`). -/
def parseStatusFields (parts : List String) : Int × Int × Int × Int :=
  if parts.length ≥ 10 then
    match pyInt? (parts.getD 6 "") with
    | none => (24, 80, 0, 0)
    | some r =>
      match pyInt? (parts.getD 7 "") with
      | none => (r, 80, 0, 0)
      | some c =>
        match pyInt? (parts.getD 8 "") with
        | none => (r, c, 0, 0)
        | some cr =>
          match pyInt? (parts.getD 9 "") with
          | none => (r, c, cr, 0)
          | some cc => (r, c, cr, cc)
  else (24, 80, 0, 0)

/-- The screen-line cleanup loop of `_get_data`: strip the `data: ` prefix,
drop `ok`/`error` status lines, keep the rest (every element of the
modelled `Ascii()` result is a string, so the `isinstance` checks pass). -/
def cleanLines (screen_lines : List String) : List String :=
  screen_lines.filterMap (fun line =>
    if pyStartsWith line "data: " then some (pyDrop line 6)
    else if pyStartsWith line "ok" || pyStartsWith line "error" then none
    else some line)

/-- Model of `TerminalSession.get_screen_data`: `Query('Cursor')` for dimensions and
cursor (taken VERBATIM from the status line, with no 1-to-0-indexed
conversion), then `Ascii()` for the screen text, cleaned and joined. -/
def get_screen_data (s : TerminalSession) (w : DriverWorld) :
    PyResult ScreenData × TerminalSession × DriverWorld :=
  match s.connection with
  | none => (.exn "Not connected", s, w)
  | some hid =>
    match emuQuery w hid "Cursor" with
    | (.exn e, w1) => (.exn e, s, w1)
    | (.ok status, w1) =>
      let status_line := if status.length > 1 then status.getD 1 "" else ""
      let parts := pySplit status_line
      let nums := parseStatusFields parts
      match emuAscii w1 hid with
      | (.exn e, w2) => (.exn e, s, w2)
      | (.ok screen_lines, w2) =>
        let text := pyJoin "\n" (cleanLines screen_lines)
        (.ok ⟨s.session_id, nums.1, nums.2.1, nums.2.2.1, nums.2.2.2, text, []⟩, s, w2)

/-- Model of `TerminalSession.wait_for_text`: a single driver `Expect` call with the
timeout truncated by `int()`; `True` on success, `False` on any `Expect`
failure (the bare `except`), never re-raising. -/
def wait_for_text (s : TerminalSession) (w : DriverWorld) (text : String)
    (timeout : ℚ) : PyResult Bool × TerminalSession × DriverWorld :=
  match s.connection with
  | none => (.exn "Not connected", s, w)
  | some hid =>
    match emuExpect w hid text (pyIntRat timeout) with
    | (.ok _, w1) => (.ok true, s, w1)
    | (.exn _, w1) => (.ok false, s, w1)

end TerminalSession

/-- Model of `TerminalManager`: the session registry, an insertion-ordered map
(`dict[str, TerminalSession]`) modelled as an association list. -/
structure TerminalManager where
  sessions : List (String × TerminalSession)
deriving DecidableEq, Repr

namespace TerminalManager

/-- Model of `TerminalManager.create_session`: the generated `uuid4` is supplied as
the `fresh` argument (callers pass an id not yet in the registry). -/
def create_session (m : TerminalManager) (fresh : String) (host : String)
    (port : Int) (use_tls : Bool) : String × TerminalManager :=
  (fresh,
   { sessions := m.sessions ++ [(fresh, ⟨fresh, host, port, use_tls, none, false⟩)] })

/-- Model of `TerminalManager.get_session`. -/
def get_session (m : TerminalManager) (sid : String) : Option TerminalSession :=
  (m.sessions.find? (fun p => p.1 == sid)).map (fun p => p.2)

/-- Write a mutated session object back into the registry (in Python the
dict and the caller share one mutable object; the model threads values). -/
def updateSession (m : TerminalManager) (sid : String) (s : TerminalSession) :
    TerminalManager :=
  { sessions := m.sessions.map (fun p => if p.1 == sid then (p.1, s) else p) }

/-- Model of `TerminalManager.remove_session`: disconnects ONLY when `is_connected`
is true, then deletes the registry entry. -/
def remove_session (m : TerminalManager) (sid : String) (w : DriverWorld) :
    TerminalManager × DriverWorld :=
  match get_session m sid with
  | none => (m, w)
  | some s =>
    if s.is_connected then
      let r := TerminalSession.disconnect s w
      ({ sessions := m.sessions.filter (fun p => p.1 != sid) }, r.2.2)
    else
      ({ sessions := m.sessions.filter (fun p => p.1 != sid) }, w)

end TerminalManager

/-- Model of `execute_step` from `api/automation.py`: interprets one step against a
session.  `CONNECT`, `READ_POSITION` and `SCREENSHOT` have no branch in the
source `if/elif` chain, so the function returns normally without touching
the session or the driver. -/
def execute_step (w : DriverWorld) (s : TerminalSession) (step : AutomationStep) :
    PyResult Unit × TerminalSession × DriverWorld :=
  match step.action with
  | .send_text =>
    match step.row, step.col with
    | some r, some c => TerminalSession.send_text s w (pyOrStr step.text "") (some r) (some c)
    | _, _ => TerminalSession.send_text s w (pyOrStr step.text "") none none
  | .send_key => TerminalSession.send_key s w (pyOrStr step.key "enter")
  | .move_cursor =>
    match step.row, step.col with
    | some r, some c => TerminalSession.move_cursor s w r c
    | _, _ => (.ok (), s, w)
  | .wait => (.ok (), s, w)
  | .wait_for_text =>
    match TerminalSession.wait_for_text s w (pyOrStr step.text "") (pyOrRat step.timeout 10) with
    | (.ok true, s1, w1) => (.ok (), s1, w1)
    | (.ok false, s1, w1) =>
      (.exn ("Timeout waiting for text: " ++ pyShowOptStr step.text), s1, w1)
    | (.exn e, s1, w1) => (.exn e, s1, w1)
  | .read_screen =>
    match TerminalSession.get_screen_data s w with
    | (.ok _, s1, w1) => (.ok (), s1, w1)
    | (.exn e, s1, w1) => (.exn e, s1, w1)
  | .assert_text =>
    match TerminalSession.get_screen_data s w with
    | (.exn e, s1, w1) => (.exn e, s1, w1)
    | (.ok dat, s1, w1) =>
      match step.text with
      | none => (.ok (), s1, w1)
      | some t =>
        if t ≠ "" ∧ pyInStr t dat.text = false then
          (.exn ("Assertion failed: \x27" ++ t ++ "\x27 not found on screen"), s1, w1)
        else (.ok (), s1, w1)
  | .disconnect => TerminalSession.disconnect s w
  | .connect => (.ok (), s, w)
  | .read_position => (.ok (), s, w)
  | .screenshot => (.ok (), s, w)

/-- Log entry appended for a successfully executed step. -/
def successEntry (step : AutomationStep) : ExecutionLog :=
  ⟨step.id, "success", "Executed: " ++ actionValue step.action⟩

/-- Log entry appended for the step whose execution raised `e`. -/
def errorEntry (step : AutomationStep) (e : String) : ExecutionLog :=
  ⟨step.id, "error", e⟩

/-- The `for step in script.steps` loop of `execute_script`: run each step
in order inside `try/except`, log success or error, `break` after the
first error. -/
def runSteps (w : DriverWorld) (s : TerminalSession) :
    List AutomationStep → List ExecutionLog × TerminalSession × DriverWorld
  | [] => ([], s, w)
  | step :: rest =>
    match execute_step w s step with
    | (.ok _, s1, w1) =>
      let r := runSteps w1 s1 rest
      (successEntry step :: r.1, r.2)
    | (.exn e, s1, w1) => ([errorEntry step e], s1, w1)

/-- Result of the `/execute/{script_id}` endpoint body: the returned dict
or a raised `HTTPException`. -/
inductive ExecResult where
  | ok (status : String) (session_id : String) (logs : List ExecutionLog)
  | httpError (code : Nat) (detail : String)
deriving DecidableEq, Repr

/-- The bookkeeping log entry recorded after a successful connect. -/
def connectEntry (script : AutomationScript) : ExecutionLog :=
  ⟨"connect", "success", "Connected to " ++ script.host ++ ":" ++ toString script.port⟩

/-- Model of `execute_script` endpoint body after the script has been loaded:
create the session, connect (on failure: remove the session and raise
HTTP 500), run the steps with stop-on-first-error, and return
`status: "completed"` with the log.  The `fresh` argument is the generated
uuid for the new session. -/
def execute_script (w : DriverWorld) (m : TerminalManager) (fresh : String)
    (script : AutomationScript) : ExecResult × TerminalManager × DriverWorld :=
  let r0 := TerminalManager.create_session m fresh script.host script.port script.use_tls
  let session_id := r0.1
  let m1 := r0.2
  match TerminalManager.get_session m1 session_id with
  | none => (.httpError 500 "Failed to create session", m1, w)
  | some s =>
    match TerminalSession.connect s w with
    | (.exn e, s1, w1) =>
      let m2 := TerminalManager.updateSession m1 session_id s1
      let r2 := TerminalManager.remove_session m2 session_id w1
      (.httpError 500 e, r2.1, r2.2)
    | (.ok _, s1, w1) =>
      let r := runSteps w1 s1 script.steps
      (.ok "completed" session_id (connectEntry script :: r.1),
       TerminalManager.updateSession m1 session_id r.2.1, r.2.2)

/-- Result of the `/connect` endpoint body. -/
inductive ConnResult where
  | ok (session_id : String) (host : String) (port : Int) (status : String)
  | httpError (code : Nat) (detail : String)
deriving DecidableEq, Repr

/-- Model of `connect_terminal` endpoint body: create the session, connect, return
the connected payload; any exception is converted to HTTP 500.  NOTE: the
partially-created session is NOT removed from the registry on failure. -/
def connect_terminal (w : DriverWorld) (m : TerminalManager) (fresh : String)
    (req : ConnectionRequest) : ConnResult × TerminalManager × DriverWorld :=
  let r0 := TerminalManager.create_session m fresh req.host req.port req.use_tls
  let session_id := r0.1
  let m1 := r0.2
  match TerminalManager.get_session m1 session_id with
  | none => (.httpError 500 "Failed to create session", m1, w)
  | some s =>
    match TerminalSession.connect s w with
    | (.ok _, s1, w1) =>
      (.ok session_id req.host req.port "connected",
       TerminalManager.updateSession m1 session_id s1, w1)
    | (.exn e, s1, w1) =>
      (.httpError 500 e, TerminalManager.updateSession m1 session_id s1, w1)

/-- Driver configuration following the spec's section 6 contract
(1-indexed MoveCursor arguments and 1-indexed cursor report) in which no
driver call fails and no Expect ever finds its text. -/
def noFailCfg : DriverConfig where
  connectFails := false
  waitOutputFails := false
  enterFails := false
  pfFails := fun _ => false
  paFails := fun _ => false
  clearFails := false
  tabFails := false
  backtabFails := false
  keyFails := fun _ => false
  stringFails := fun _ => false
  moveFails := false
  queryFails := false
  asciiFails := false
  expectFinds := fun _ _ => false
  moveInputOffset := 1
  reportOffset := 1
  rows := 24
  cols := 80
  screenLines := ["data: WELCOME", "ok"]

/-- Same driver, but `Connect` fails. -/
def connectFailCfg : DriverConfig :=
  { noFailCfg with connectFails := true }

/-- A driver world with no handles allocated and an empty call trace. -/
def emptyWorld (cfg : DriverConfig) : DriverWorld :=
  ⟨cfg, [], 0, []⟩

/-- A session as `create_session` builds it: no handle, not connected. -/
def freshSession : TerminalSession :=
  ⟨"sid", "mainframe.example", 992, true, none, false⟩

/-- A session in the Connected state owning handle 0. -/
def connSess : TerminalSession :=
  ⟨"sid", "mainframe.example", 992, true, some 0, true⟩

/-- The world matching `connSess`: handle 0 open, cursor at (5, 7). -/
def connWorld : DriverWorld :=
  ⟨noFailCfg, [⟨0, true, 5, 7⟩], 1, []⟩

/-- Session state after a successful `connect()` from `freshSession`. -/
def sessA : TerminalSession :=
  (TerminalSession.connect freshSession (emptyWorld noFailCfg)).2.1

/-- Driver world after that successful `connect()`. -/
def worldA : DriverWorld :=
  (TerminalSession.connect freshSession (emptyWorld noFailCfg)).2.2

/-- Session state after a subsequent `disconnect()`: the Disconnected state
reached after a disconnect. -/
def sessB : TerminalSession :=
  (TerminalSession.disconnect sessA worldA).2.1

/-- Driver world after that `disconnect()`. -/
def worldB : DriverWorld :=
  (TerminalSession.disconnect sessA worldA).2.2

/-- The two driver calls that make up a `readScreen`
(`Query('Cursor')` and `Ascii()`). -/
def isReadScreenCall : DriverCall → Bool
  | .queryCall _ _ => true
  | .asciiCall _ => true
  | _ => false

/-- The rational one half (Python's 0.5-second timeout literal),
in normal form so that kernel evaluation is direct. -/
def half : ℚ := ⟨1, 2, by decide, by decide⟩

/-- A WAIT_FOR_TEXT step that fails under `noFailCfg` (its Expect never
finds the text). -/
def failingStep : AutomationStep :=
  ⟨"s3", .wait_for_text, none, none, some "READY", none, some half⟩

/-- A WAIT step (never fails, no driver call). -/
def waitStep (i : String) : AutomationStep :=
  ⟨i, .wait, none, none, none, none, some 1⟩

/-- One-failing-step script used against `execute_script`. -/
def script1 : AutomationScript :=
  ⟨"scr", "mainframe.example", 992, true, [failingStep]⟩

/-- The spec's 5-step scenario: steps 1-2 succeed, step 3 fails,
steps 4-5 are never reached. -/
def steps5 : List AutomationStep :=
  [waitStep "s1", waitStep "s2", failingStep, waitStep "s4", waitStep "s5"]

/-- A `/connect` request against a driver whose Connect fails: the
endpoint result, the registry it leaves behind, and the driver world. -/
def failedConnectRun : ConnResult × TerminalManager × DriverWorld :=
  connect_terminal (emptyWorld connectFailCfg) ⟨[]⟩ "sid" ⟨"mainframe.example", 992, true⟩

/-- A registry holding the one connected session `connSess`. -/
def connMgr : TerminalManager :=
  ⟨[("sid", connSess)]⟩

/-- Helper: `send_text` never writes any session field. -/
theorem send_text_session_unchanged (s : TerminalSession) (w : DriverWorld)
    (t : String) (r c : Option Nat) :
    (TerminalSession.send_text s w t r c).2.1 = s := by
  unfold TerminalSession.send_text
  cases s.connection with
  | none => rfl
  | some hid =>
    cases r with
    | none => rfl
    | some rv =>
      cases c with
      | none => rfl
      | some cv =>
        cases hmv : emuMoveCursor w hid (rv + 1) (cv + 1) with
        | mk pr w1 => cases pr <;> simp [hmv, TerminalSession.liftE]

/-- Helper: `send_key` never writes any session field. -/
theorem send_key_session_unchanged (s : TerminalSession) (w : DriverWorld)
    (k : String) : (TerminalSession.send_key s w k).2.1 = s := by
  unfold TerminalSession.send_key
  cases s.connection with
  | none => rfl
  | some hid =>
    simp only [TerminalSession.liftE]
    split
    · rfl
    · split
      · split <;> rfl
      · split
        · split <;> rfl
        · split
          · rfl
          · split
            · rfl
            · split <;> rfl

/-- Helper: `move_cursor` never writes any session field. -/
theorem move_cursor_session_unchanged (s : TerminalSession) (w : DriverWorld)
    (r c : Nat) : (TerminalSession.move_cursor s w r c).2.1 = s := by
  unfold TerminalSession.move_cursor
  cases s.connection <;> rfl

/-- Helper: `get_screen_data` never writes any session field. -/
theorem get_screen_data_session_unchanged (s : TerminalSession) (w : DriverWorld) :
    (TerminalSession.get_screen_data s w).2.1 = s := by
  unfold TerminalSession.get_screen_data
  cases s.connection with
  | none => rfl
  | some hid =>
    cases hq : emuQuery w hid "Cursor" with
    | mk pr w1 =>
      cases pr with
      | exn e => simp [hq]
      | ok status =>
        simp only [hq]
        cases ha : emuAscii w1 hid with
        | mk pr2 w2 => cases pr2 <;> simp [ha]

/-- Helper: `wait_for_text` never writes any session field. -/
theorem wait_for_text_session_unchanged (s : TerminalSession) (w : DriverWorld)
    (t : String) (q : ℚ) : (TerminalSession.wait_for_text s w t q).2.1 = s := by
  unfold TerminalSession.wait_for_text
  cases s.connection with
  | none => rfl
  | some hid =>
    cases he : emuExpect w hid t (pyIntRat q) with
    | mk pr w1 => cases pr <;> simp [he]

/-- Every step interpreter branch except DISCONNECT leaves the session
object untouched (only the driver world can change). -/
theorem execute_step_session_unchanged (w : DriverWorld) (s : TerminalSession)
    (step : AutomationStep) (h : step.action ≠ ActionType.disconnect) :
    (execute_step w s step).2.1 = s := by
  unfold execute_step
  cases ha : step.action with
  | disconnect => exact absurd ha h
  | send_text =>
    cases step.row <;> cases step.col <;> simp [send_text_session_unchanged]
  | send_key => exact send_key_session_unchanged ..
  | move_cursor =>
    cases step.row <;> cases step.col <;>
      simp [move_cursor_session_unchanged]
  | wait => rfl
  | wait_for_text =>
    cases hw : TerminalSession.wait_for_text s w (pyOrStr step.text "")
        (pyOrRat step.timeout 10) with
    | mk pr rest =>
      have hs := wait_for_text_session_unchanged s w (pyOrStr step.text "")
        (pyOrRat step.timeout 10)
      rw [hw] at hs
      cases pr with
      | ok b => cases b <;> simp [hw] <;> exact hs
      | exn e => simp [hw]; exact hs
  | read_screen =>
    cases hg : TerminalSession.get_screen_data s w with
    | mk pr rest =>
      have hs := get_screen_data_session_unchanged s w
      rw [hg] at hs
      cases pr <;> simp [hg] <;> exact hs
  | assert_text =>
    cases hg : TerminalSession.get_screen_data s w with
    | mk pr rest =>
      have hs := get_screen_data_session_unchanged s w
      rw [hg] at hs
      cases pr with
      | exn e => simp [hg]; exact hs
      | ok dat =>
        cases step.text with
        | none => simp [hg]; exact hs
        | some t => simp [hg]; split <;> exact hs
  | connect => rfl
  | read_position => rfl
  | screenshot => rfl

/-- Claim C1: script execution is stop-on-first-error.  For every step list
and start state, either every step succeeds and the log is exactly one
`success` entry per step in script order, or there is a decomposition
`steps = pre ++ stepK :: post` such that every step of `pre` succeeded and
is logged `success` in order, `stepK` is the first step to raise and is
logged with status `error` and its exception message, no step of `post` is
attempted (the run returns at the error entry), and when the failing step
is not DISCONNECT the session object — in particular its connected flag —
is exactly what it was before the failing step. -/
theorem runSteps_stop_on_first_error (steps : List AutomationStep)
    (w : DriverWorld) (s : TerminalSession) :
    (∃ sF wF, runSteps w s steps = (steps.map successEntry, sF, wF)) ∨
    (∃ pre stepK post e sk wk sF wF,
      steps = pre ++ stepK :: post ∧
      runSteps w s pre = (pre.map successEntry, sk, wk) ∧
      execute_step wk sk stepK = (PyResult.exn e, sF, wF) ∧
      runSteps w s steps = (pre.map successEntry ++ [errorEntry stepK e], sF, wF) ∧
      (errorEntry stepK e).status = "error" ∧
      (errorEntry stepK e).message = e ∧
      (∀ l ∈ pre.map successEntry, l.status = "success") ∧
      (stepK.action ≠ ActionType.disconnect → sF = sk)) := by
  induction steps generalizing w s with
  | nil => exact Or.inl ⟨s, w, rfl⟩
  | cons step rest ih =>
    cases hstep : execute_step w s step with
    | mk pr s1w1 =>
      obtain ⟨s1, w1⟩ := s1w1
      cases pr with
      | exn e =>
        refine Or.inr ⟨[], step, rest, e, s, w, s1, w1, rfl, rfl, hstep, ?_, rfl, rfl, ?_, ?_⟩
        · show runSteps w s (step :: rest) = ([] ++ [errorEntry step e], s1, w1)
          simp [runSteps, hstep]
        · intro l hl
          simp at hl
        · intro hne
          have hu := execute_step_session_unchanged w s step hne
          rw [hstep] at hu
          exact hu
      | ok u =>
        rcases ih w1 s1 with ⟨sF, wF, hall⟩ |
          ⟨pre, stepK, post, e, sk, wk, sF, wF, hsp, hpre, hK, hallR, h1, h2, _, h4⟩
        · refine Or.inl ⟨sF, wF, ?_⟩
          simp [runSteps, hstep, hall]
        · refine Or.inr ⟨step :: pre, stepK, post, e, sk, wk, sF, wF, ?_, ?_, hK, ?_, h1, h2, ?_, h4⟩
          · rw [hsp, List.cons_append]
          · simp [runSteps, hstep, hpre]
          · simp [runSteps, hstep, hallR]
          · intro l hl
            rcases List.mem_map.mp hl with ⟨a, _, rfl⟩
            rfl

/-- Claim C1 witness: the stop-on-first-error decomposition evaluated on
the spec's 5-step scenario (steps 1-2 succeed, step 3 fails). -/
theorem runSteps_stop_on_first_error_witness :
    (∃ sF wF, runSteps connWorld connSess steps5 = (steps5.map successEntry, sF, wF)) ∨
    (∃ pre stepK post e sk wk sF wF,
      steps5 = pre ++ stepK :: post ∧
      runSteps connWorld connSess pre = (pre.map successEntry, sk, wk) ∧
      execute_step wk sk stepK = (PyResult.exn e, sF, wF) ∧
      runSteps connWorld connSess steps5 =
        (pre.map successEntry ++ [errorEntry stepK e], sF, wF) ∧
      (errorEntry stepK e).status = "error" ∧
      (errorEntry stepK e).message = e ∧
      (∀ l ∈ pre.map successEntry, l.status = "success") ∧
      (stepK.action ≠ ActionType.disconnect → sF = sk)) :=
  runSteps_stop_on_first_error steps5 connWorld connSess

/-- Claim C10: the CONNECT, READ_POSITION and SCREENSHOT action kinds have
no branch in `execute_step`, so the interpreter returns normally with the
session and the driver world (hence its call trace) completely unchanged,
and the executor loop logs the step `success` and proceeds with the rest. -/
theorem unimplemented_actions_are_noops (w : DriverWorld) (s : TerminalSession)
    (step : AutomationStep) (rest : List AutomationStep)
    (h : step.action = ActionType.connect ∨ step.action = ActionType.read_position ∨
         step.action = ActionType.screenshot) :
    execute_step w s step = (PyResult.ok (), s, w) ∧
    runSteps w s (step :: rest) =
      (successEntry step :: (runSteps w s rest).1, (runSteps w s rest).2) := by
  have h1 : execute_step w s step = (PyResult.ok (), s, w) := by
    rcases h with h | h | h <;> simp [execute_step, h]
  exact ⟨h1, by simp [runSteps, h1]⟩

/-- Claim C10 witness: a SCREENSHOT step is a silent no-op before a WAIT step. -/
theorem unimplemented_actions_are_noops_witness :
    execute_step connWorld connSess ⟨"shot", ActionType.screenshot, none, none, none, none, none⟩ =
      (PyResult.ok (), connSess, connWorld) ∧
    runSteps connWorld connSess
        (⟨"shot", ActionType.screenshot, none, none, none, none, none⟩ :: [waitStep "s1"]) =
      (successEntry ⟨"shot", ActionType.screenshot, none, none, none, none, none⟩ ::
         (runSteps connWorld connSess [waitStep "s1"]).1,
       (runSteps connWorld connSess [waitStep "s1"]).2) :=
  unimplemented_actions_are_noops connWorld connSess
    ⟨"shot", ActionType.screenshot, none, none, none, none, none⟩ [waitStep "s1"]
    (Or.inr (Or.inr rfl))

/-- Helper: `find?` skips a prefix containing no match. -/
theorem find?_append_none {α : Type} (p : α → Bool) (l₁ l₂ : List α)
    (h : l₁.find? p = none) : (l₁ ++ l₂).find? p = l₂.find? p := by
  rw [List.find?_append, h]
  rfl

/-- Looking up a freshly created session returns the new not-connected,
handle-less session object. -/
theorem get_session_create (m : TerminalManager) (fresh host : String)
    (port : Int) (tls : Bool)
    (hf : TerminalManager.get_session m fresh = none) :
    TerminalManager.get_session
        (TerminalManager.create_session m fresh host port tls).2 fresh =
      some ⟨fresh, host, port, tls, none, false⟩ := by
  unfold TerminalManager.get_session at hf ⊢
  unfold TerminalManager.create_session
  have h0 : m.sessions.find? (fun p => p.1 == fresh) = none := by
    cases hx : m.sessions.find? (fun p => p.1 == fresh) with
    | none => rfl
    | some v => rw [hx] at hf; simp at hf
  rw [find?_append_none _ _ _ h0]
  simp [List.find?]

/-- Updating a present session makes the lookup return the new object. -/
theorem get_session_update (m : TerminalManager) (sid : String) (s : TerminalSession) :
    TerminalManager.get_session (TerminalManager.updateSession m sid s) sid =
      (TerminalManager.get_session m sid).map (fun _ => s) := by
  unfold TerminalManager.get_session TerminalManager.updateSession
  induction m.sessions with
  | nil => rfl
  | cons a l ih =>
    cases ha : (a.1 == sid) with
    | true => simp [List.find?, ha]
    | false =>
      simp only [List.map_cons, List.find?, ha, if_neg]
      simpa [List.find?, ha] using ih

/-- The registry delete (`del self.sessions[...]`) removes every entry
with the evicted id from lookup range. -/
theorem find?_filter_ne_none (sid : String) (l : List (String × TerminalSession)) :
    (l.filter (fun p => p.1 != sid)).find? (fun p => p.1 == sid) = none := by
  induction l with
  | nil => rfl
  | cons a l ih =>
    by_cases ha : a.1 = sid
    · simp [List.filter_cons, ha, ih]
    · simp [List.filter_cons, ha, List.find?, ih]

/-- After `remove_session`, the id is gone from the registry. -/
theorem get_session_remove (m : TerminalManager) (sid : String) (w : DriverWorld) :
    TerminalManager.get_session (TerminalManager.remove_session m sid w).1 sid = none := by
  unfold TerminalManager.remove_session
  cases hg : TerminalManager.get_session m sid with
  | none => simpa using hg
  | some s =>
    cases hc : s.is_connected <;>
      simp [hc, TerminalManager.get_session, find?_filter_ne_none]

/-- When the driver's `Connect` does not fail, `connect()` returns normally. -/
theorem connect_fst_of_ok (s : TerminalSession) (w : DriverWorld)
    (h : w.cfg.connectFails = false) :
    (TerminalSession.connect s w).1 = PyResult.ok () := by
  unfold TerminalSession.connect TerminalSession._sync_connect
  simp [emuConnect, emuNew, addCall, setHandle, h]

/-- When the driver's `Connect` fails, `connect()` raises the wrapped
message and the session keeps the handle allocated before the attempt
(`self.connection` was assigned before `Connect` raised), with the
connected flag untouched. -/
theorem connect_fail_shape (s : TerminalSession) (w : DriverWorld)
    (h : w.cfg.connectFails = true) :
    TerminalSession.connect s w =
      (PyResult.exn ("Failed to connect to " ++ s.host ++ ":" ++ toString s.port ++ " - " ++
         ("Connection failed: " ++
           ((if s.use_tls then "L:" else "") ++ s.host ++ ":" ++ toString s.port))),
       { s with connection := some w.nextId },
       addCall { w with nextId := w.nextId + 1,
                        handles := w.handles ++ [⟨w.nextId, false, 0, 0⟩] }
         (DriverCall.connectCall w.nextId
           ((if s.use_tls then "L:" else "") ++ s.host ++ ":" ++ toString s.port))) := by
  unfold TerminalSession.connect TerminalSession._sync_connect
  simp [emuConnect, emuNew, addCall, h]

/-- Claim C2 counterexample: a run whose only step fails still returns the
terminal status "completed" (never "failed") together with the log holding
the step's error entry. -/
theorem execute_script_reports_completed_after_step_failure :
    (execute_script (emptyWorld noFailCfg) ⟨[]⟩ "sid" script1).1 =
      ExecResult.ok "completed" "sid"
        [connectEntry script1,
         ⟨"s3", "error", "Timeout waiting for text: READY"⟩] ∧
    "completed" ≠ "failed" := by
  exact ⟨by decide, by decide⟩

/-- Claim C2 (amended): whenever the driver connect succeeds, the executor
catches every per-step failure (no exception escapes to the caller: the
endpoint returns instead of raising) and the caller receives the ordered
log — the connect bookkeeping entry followed by the per-step entries —
with a terminal status that is ALWAYS "completed", a failed step
notwithstanding. -/
theorem execute_script_ok_when_connect_succeeds (w : DriverWorld)
    (m : TerminalManager) (fresh : String) (script : AutomationScript)
    (hc : w.cfg.connectFails = false)
    (hf : TerminalManager.get_session m fresh = none) :
    ∃ s1 w1,
      TerminalSession.connect ⟨fresh, script.host, script.port, script.use_tls, none, false⟩ w =
        (PyResult.ok (), s1, w1) ∧
      execute_script w m fresh script =
        (ExecResult.ok "completed" fresh
           (connectEntry script :: (runSteps w1 s1 script.steps).1),
         TerminalManager.updateSession
           (TerminalManager.create_session m fresh script.host script.port script.use_tls).2
           fresh (runSteps w1 s1 script.steps).2.1,
         (runSteps w1 s1 script.steps).2.2) := by
  have hg := get_session_create m fresh script.host script.port script.use_tls hf
  have h1 := connect_fst_of_ok ⟨fresh, script.host, script.port, script.use_tls, none, false⟩ w hc
  have hpair : TerminalSession.connect
      (⟨fresh, script.host, script.port, script.use_tls, none, false⟩ : TerminalSession) w =
      (PyResult.ok (),
       (TerminalSession.connect ⟨fresh, script.host, script.port, script.use_tls, none, false⟩ w).2.1,
       (TerminalSession.connect ⟨fresh, script.host, script.port, script.use_tls, none, false⟩ w).2.2) := by
    rw [← h1]
  refine ⟨_, _, hpair, ?_⟩
  have hg2 : TerminalManager.get_session
      { sessions := m.sessions ++
          [(fresh, ⟨fresh, script.host, script.port, script.use_tls, none, false⟩)] } fresh =
      some ⟨fresh, script.host, script.port, script.use_tls, none, false⟩ := by
    simpa [TerminalManager.create_session] using hg
  dsimp only [execute_script, TerminalManager.create_session]
  rw [hg2]
  dsimp only
  rw [hpair]

/-- Claim C2 witness: the amended theorem applied to a concrete run whose
single step fails. -/
theorem execute_script_ok_when_connect_succeeds_witness :
    ∃ s1 w1,
      TerminalSession.connect ⟨"sid", script1.host, script1.port, script1.use_tls, none, false⟩
          (emptyWorld noFailCfg) = (PyResult.ok (), s1, w1) ∧
      execute_script (emptyWorld noFailCfg) ⟨[]⟩ "sid" script1 =
        (ExecResult.ok "completed" "sid"
           (connectEntry script1 :: (runSteps w1 s1 script1.steps).1),
         TerminalManager.updateSession
           (TerminalManager.create_session ⟨[]⟩ "sid" script1.host script1.port script1.use_tls).2
           "sid" (runSteps w1 s1 script1.steps).2.1,
         (runSteps w1 s1 script1.steps).2.2) :=
  execute_script_ok_when_connect_succeeds (emptyWorld noFailCfg) ⟨[]⟩ "sid" script1 rfl rfl

/-- Claim C3 counterexample: after a connect/disconnect pair the session is
Disconnected yet still holds its handle (`connection` is not cleared), and
a second `disconnect()` issues a second Driver disconnect call. -/
theorem disconnect_keeps_handle_and_repeats_driver_call :
    sessB.is_connected = false ∧
    sessB.connection = some 0 ∧
    (TerminalSession.disconnect sessB worldB).1 = PyResult.ok () ∧
    (TerminalSession.disconnect sessB worldB).2.2.trace =
      worldB.trace ++ [DriverCall.disconnectCall 0] := by
  exact ⟨by decide, by decide, by decide, by decide⟩

/-- Claim C3 (amended): `disconnect()` succeeds from any state — a no-op
when no handle was ever allocated, otherwise clearing only the connected
flag while issuing a Driver disconnect call on EVERY invocation; the
handle itself is never cleared, and it also remains on the session after a
failed `connect()`. -/
theorem disconnect_behavior (s : TerminalSession) (w : DriverWorld) :
    (s.connection = none → TerminalSession.disconnect s w = (PyResult.ok (), s, w)) ∧
    (∀ hid, s.connection = some hid →
      TerminalSession.disconnect s w =
        (PyResult.ok (), { s with is_connected := false }, emuDisconnect w hid)) ∧
    (w.cfg.connectFails = true →
      (TerminalSession.connect s w).2.1.connection = some w.nextId ∧
      (TerminalSession.connect s w).2.1.is_connected = s.is_connected) := by
  refine ⟨?_, ?_, ?_⟩
  · intro h
    unfold TerminalSession.disconnect
    rw [h]
  · intro hid h
    unfold TerminalSession.disconnect
    rw [h]
  · intro h
    rw [connect_fail_shape s w h]
    exact ⟨rfl, rfl⟩

/-- Claim C3 witness: the amended disconnect characterization evaluated on
the handle-holding disconnected session. -/
theorem disconnect_behavior_witness :
    TerminalSession.disconnect sessB worldB =
      (PyResult.ok (), { sessB with is_connected := false }, emuDisconnect worldB 0) :=
  (disconnect_behavior sessB worldB).2.1 0 (by decide)

/-- Claim C4 counterexample: in the Disconnected state reached after
`disconnect()`, send_text and send_key succeed and perform Driver calls
instead of failing with a not-connected error. -/
theorem ops_after_disconnect_still_hit_driver :
    sessB.is_connected = false ∧
    TerminalSession.send_text sessB worldB "hello" none none =
      (PyResult.ok (), sessB, addCall worldB (DriverCall.stringCall 0 "hello")) ∧
    TerminalSession.send_key sessB worldB "enter" =
      (PyResult.ok (), sessB, addCall worldB (DriverCall.enterKey 0)) := by
  exact ⟨by decide, rfl, rfl⟩

/-- Helper: the int() ValueError message is never the not-connected
message (their lengths differ for every remainder). -/
theorem invalid_literal_ne_not_connected (z : String) :
    ("invalid literal for int() with base 10: \x27" ++ z ++ "\x27") ≠ "Not connected" := by
  intro hq
  have h2 := congrArg String.length hq
  rw [String.length_append, String.length_append] at h2
  have hA : ("invalid literal for int() with base 10: \x27" : String).length = 41 := by decide
  have hB : ("\x27" : String).length = 1 := by decide
  have hC : ("Not connected" : String).length = 13 := by decide
  rw [hA, hB, hC] at h2
  omega

/-- Claim C4 (amended): sendText, sendKey, moveCursor and readScreen fail
with the "Not connected" error and perform no Driver call exactly when the
session holds no Driver handle; with a handle present the not-connected
error is impossible for every operation and every argument, the operations
proceed and issue Driver calls (send_text its String call, move_cursor its
MoveCursor call, get_screen_data its Query call, send_key e.g. the Enter
call), and none of the four operations consults the connected flag at all:
their result and their driver effect are independent of `is_connected`. -/
theorem ops_guard_on_handle_not_flag (s : TerminalSession) (w : DriverWorld) :
    (s.connection = none →
      (∀ t r c, TerminalSession.send_text s w t r c = (PyResult.exn "Not connected", s, w)) ∧
      (∀ k, TerminalSession.send_key s w k = (PyResult.exn "Not connected", s, w)) ∧
      (∀ r c, TerminalSession.move_cursor s w r c = (PyResult.exn "Not connected", s, w)) ∧
      TerminalSession.get_screen_data s w = (PyResult.exn "Not connected", s, w)) ∧
    (∀ hid, s.connection = some hid →
      (∀ t, TerminalSession.send_text s w t none none =
        TerminalSession.liftE s (emuString w hid t)) ∧
      (∀ t, (TerminalSession.send_text s w t none none).2.2.trace =
        w.trace ++ [DriverCall.stringCall hid t]) ∧
      (∀ r c, TerminalSession.move_cursor s w r c =
        TerminalSession.liftE s (emuMoveCursor w hid (r + 1) (c + 1))) ∧
      (∀ r c, (TerminalSession.move_cursor s w r c).2.2.trace =
        w.trace ++ [DriverCall.moveCall hid (r + 1) (c + 1)]) ∧
      (∃ rest, (TerminalSession.get_screen_data s w).2.2.trace =
        w.trace ++ DriverCall.queryCall hid "Cursor" :: rest) ∧
      (TerminalSession.send_key s w "enter" = TerminalSession.liftE s (emuEnter w hid)) ∧
      (∀ t r c, (TerminalSession.send_text s w t r c).1 ≠ PyResult.exn "Not connected") ∧
      (∀ k, (TerminalSession.send_key s w k).1 ≠ PyResult.exn "Not connected") ∧
      (∀ r c, (TerminalSession.move_cursor s w r c).1 ≠ PyResult.exn "Not connected") ∧
      (TerminalSession.get_screen_data s w).1 ≠ PyResult.exn "Not connected") ∧
    (∀ b t r c,
      (TerminalSession.send_text { s with is_connected := b } w t r c).1 =
        (TerminalSession.send_text s w t r c).1 ∧
      (TerminalSession.send_text { s with is_connected := b } w t r c).2.2 =
        (TerminalSession.send_text s w t r c).2.2) ∧
    (∀ b k,
      (TerminalSession.send_key { s with is_connected := b } w k).1 =
        (TerminalSession.send_key s w k).1 ∧
      (TerminalSession.send_key { s with is_connected := b } w k).2.2 =
        (TerminalSession.send_key s w k).2.2) ∧
    (∀ b r c,
      (TerminalSession.move_cursor { s with is_connected := b } w r c).1 =
        (TerminalSession.move_cursor s w r c).1 ∧
      (TerminalSession.move_cursor { s with is_connected := b } w r c).2.2 =
        (TerminalSession.move_cursor s w r c).2.2) ∧
    (∀ b,
      (TerminalSession.get_screen_data { s with is_connected := b } w).1 =
        (TerminalSession.get_screen_data s w).1 ∧
      (TerminalSession.get_screen_data { s with is_connected := b } w).2.2 =
        (TerminalSession.get_screen_data s w).2.2) := by
  refine ⟨?_, ?_, ?_, ?_, ?_, ?_⟩
  · intro h
    refine ⟨?_, ?_, ?_, ?_⟩
    · intro t r c
      unfold TerminalSession.send_text
      rw [h]
    · intro k
      unfold TerminalSession.send_key
      rw [h]
    · intro r c
      unfold TerminalSession.move_cursor
      rw [h]
    · unfold TerminalSession.get_screen_data
      rw [h]
  · intro hid h
    refine ⟨?_, ?_, ?_, ?_, ?_, ?_, ?_, ?_, ?_, ?_⟩
    · intro t
      unfold TerminalSession.send_text
      rw [h]
    · intro t
      unfold TerminalSession.send_text
      rw [h]
      dsimp only [TerminalSession.liftE, emuString, addCall]
      split <;> rfl
    · intro r c
      unfold TerminalSession.move_cursor
      rw [h]
    · intro r c
      unfold TerminalSession.move_cursor
      rw [h]
      dsimp only [TerminalSession.liftE, emuMoveCursor, addCall, setHandle]
      split <;> rfl
    · unfold TerminalSession.get_screen_data
      rw [h]
      unfold emuQuery
      cases hq : w.cfg.queryFails with
      | true =>
        refine ⟨[], ?_⟩
        simp [hq, addCall]
      | false =>
        unfold emuAscii
        cases ha : w.cfg.asciiFails with
        | true =>
          refine ⟨[DriverCall.asciiCall hid], ?_⟩
          simp [hq, ha, addCall]
        | false =>
          refine ⟨[DriverCall.asciiCall hid], ?_⟩
          simp [hq, ha, addCall]
    · unfold TerminalSession.send_key
      rw [h]
      exact rfl
    · intro t r c
      unfold TerminalSession.send_text
      rw [h]
      cases hm : w.cfg.moveFails <;> cases hs : w.cfg.stringFails t <;>
        cases r <;> cases c <;>
          dsimp only [TerminalSession.liftE, emuString, emuMoveCursor, addCall, setHandle] <;>
          simp [hm, hs]
    · intro k
      unfold TerminalSession.send_key
      rw [h]
      dsimp only [TerminalSession.liftE, emuEnter, emuPF, emuPA, emuClear, emuTab,
        emuBackTab, emuKey, addCall]
      repeat' split
      all_goals first
        | decide
        | (intro hq; injection hq with hq2; exact invalid_literal_ne_not_connected _ hq2)
        | simp
    · intro r c
      unfold TerminalSession.move_cursor
      rw [h]
      cases hm : w.cfg.moveFails <;>
        dsimp only [TerminalSession.liftE, emuMoveCursor, addCall, setHandle] <;>
        simp [hm]
    · unfold TerminalSession.get_screen_data
      rw [h]
      cases hq : w.cfg.queryFails <;> cases ha : w.cfg.asciiFails <;>
        dsimp only [emuQuery, emuAscii, addCall] <;>
        simp [hq, ha]
  · intro b t r c
    unfold TerminalSession.send_text
    dsimp only
    cases hcon : s.connection with
    | none => exact ⟨rfl, rfl⟩
    | some hid => refine ⟨?_, ?_⟩ <;> (repeat' split) <;> rfl
  · intro b k
    unfold TerminalSession.send_key
    dsimp only
    cases hcon : s.connection with
    | none => exact ⟨rfl, rfl⟩
    | some hid => refine ⟨?_, ?_⟩ <;> (repeat' split) <;> rfl
  · intro b r c
    unfold TerminalSession.move_cursor
    dsimp only
    cases hcon : s.connection with
    | none => exact ⟨rfl, rfl⟩
    | some hid => refine ⟨?_, ?_⟩ <;> (repeat' split) <;> rfl
  · intro b
    unfold TerminalSession.get_screen_data
    dsimp only
    cases hcon : s.connection with
    | none => exact ⟨rfl, rfl⟩
    | some hid => refine ⟨?_, ?_⟩ <;> (repeat' split) <;> rfl

/-- Claim C4 witness: the amended theorem evaluated on the handle-holding
disconnected session, for send_text and move_cursor driver calls. -/
theorem ops_guard_on_handle_not_flag_witness :
    (TerminalSession.send_text sessB worldB "x" none none).2.2.trace =
      worldB.trace ++ [DriverCall.stringCall 0 "x"] ∧
    (TerminalSession.move_cursor sessB worldB 2 3).2.2.trace =
      worldB.trace ++ [DriverCall.moveCall 0 3 4] :=
  ⟨((ops_guard_on_handle_not_flag sessB worldB).2.1 0 (by decide)).2.1 "x",
   ((ops_guard_on_handle_not_flag sessB worldB).2.1 0 (by decide)).2.2.2.1 2 3⟩

/-- Claim C5 (code-bug evidence): with the Driver following the spec's
section-6 contract (1-indexed MoveCursor input, 1-indexed cursor report),
moveCursor(0,0) followed by readScreen yields cursorRow = cursorCol = 1,
not 0: `move_cursor` applies the +1 boundary conversion but
`get_screen_data` returns the driver-reported cursor verbatim, so the
conversion is not applied symmetrically. -/
theorem cursor_roundtrip_off_by_one :
    (TerminalSession.move_cursor connSess connWorld 0 0).1 = PyResult.ok () ∧
    (TerminalSession.get_screen_data connSess
        (TerminalSession.move_cursor connSess connWorld 0 0).2.2).1 =
      PyResult.ok ⟨"sid", 24, 80, 1, 1, "WELCOME", []⟩ := by
  exact ⟨by decide, by decide⟩

/-- Claim C6 counterexample: `wait_for_text("READY", 0.5)` on a screen that
never shows the text performs exactly one driver Expect call — with the
timeout truncated to 0 whole seconds — and ZERO readScreen (Query/Ascii)
calls, returning false as a normal result: there is no 100 ms readScreen
polling loop. -/
theorem wait_for_text_never_polls_readscreen :
    TerminalSession.wait_for_text connSess connWorld "READY" half =
      (PyResult.ok false, connSess,
       addCall connWorld (DriverCall.expectCall 0 "READY" 0)) ∧
    pyIntRat half = 0 ∧
    ((addCall connWorld (DriverCall.expectCall 0 "READY" 0)).trace.filter
        isReadScreenCall).length = 0 := by
  exact ⟨rfl, by decide, by decide⟩

/-- Claim C6 (amended): for a session holding a handle, waitForText makes a
single driver Expect call with the timeout truncated to whole seconds and
returns that call's boolean outcome — true when the driver finds the text,
false on any Expect failure including timeout — never raising; it performs
no readScreen polling of its own (the waiting is delegated to the Driver). -/
theorem wait_for_text_single_expect (s : TerminalSession) (w : DriverWorld)
    (hid : Nat) (text : String) (q : ℚ) (h : s.connection = some hid) :
    TerminalSession.wait_for_text s w text q =
      (PyResult.ok (w.cfg.expectFinds text (pyIntRat q)), s,
       addCall w (DriverCall.expectCall hid text (pyIntRat q))) := by
  unfold TerminalSession.wait_for_text
  rw [h]
  unfold emuExpect
  cases hf : w.cfg.expectFinds text (pyIntRat q) <;> simp [hf]

/-- Claim C6 witness: the single-Expect characterization evaluated on the
connected session with a 10-second timeout. -/
theorem wait_for_text_single_expect_witness :
    TerminalSession.wait_for_text connSess connWorld "HELLO" 10 =
      (PyResult.ok (connWorld.cfg.expectFinds "HELLO" (pyIntRat 10)), connSess,
       addCall connWorld (DriverCall.expectCall 0 "HELLO" (pyIntRat 10))) :=
  wait_for_text_single_expect connSess connWorld 0 "HELLO" 10 rfl

/-- Claim C7 counterexample: a registered session holding a handle while
its connected flag is false (left by a failed connect) is evicted by
`remove_session` WITHOUT any Driver disconnect call — the driver call
trace is unchanged — contradicting unconditional disconnection before
eviction. -/
theorem remove_session_skips_disconnect_for_flagless_handle :
    (TerminalManager.get_session failedConnectRun.2.1 "sid").map
        (fun s => (s.connection, s.is_connected)) = some (some 0, false) ∧
    (TerminalManager.remove_session failedConnectRun.2.1 "sid" failedConnectRun.2.2).2.trace =
      failedConnectRun.2.2.trace ∧
    TerminalManager.get_session
        (TerminalManager.remove_session failedConnectRun.2.1 "sid" failedConnectRun.2.2).1
        "sid" = none := by
  exact ⟨by decide, rfl, by decide⟩

/-- Claim C7 (amended): `remove_session` always evicts the id from the
registry, but disconnects only when the session's connected flag is true:
with the flag false the driver world is untouched (no Driver disconnect
call is made, even if a handle is held), and with the flag true and a
handle present exactly one driver disconnect for that handle is issued
before eviction. -/
theorem remove_session_conditional_disconnect (m : TerminalManager)
    (sid : String) (w : DriverWorld) (s : TerminalSession)
    (h : TerminalManager.get_session m sid = some s) :
    (TerminalManager.remove_session m sid w).1.sessions =
      m.sessions.filter (fun p => p.1 != sid) ∧
    TerminalManager.get_session (TerminalManager.remove_session m sid w).1 sid = none ∧
    (s.is_connected = false → (TerminalManager.remove_session m sid w).2 = w) ∧
    (∀ hid, s.is_connected = true → s.connection = some hid →
      (TerminalManager.remove_session m sid w).2 = emuDisconnect w hid) := by
  refine ⟨?_, get_session_remove m sid w, ?_, ?_⟩
  · unfold TerminalManager.remove_session
    rw [h]
    dsimp only
    split <;> rfl
  · intro hc
    unfold TerminalManager.remove_session
    rw [h]
    simp [hc]
  · intro hid hc hcon
    unfold TerminalManager.remove_session
    rw [h]
    simp [hc, TerminalSession.disconnect, hcon]

/-- Claim C7 witness: the conditional-disconnect characterization of
`remove_session` evaluated on a registry holding one connected session. -/
theorem remove_session_conditional_disconnect_witness :
    (TerminalManager.remove_session connMgr "sid" connWorld).1.sessions =
      connMgr.sessions.filter (fun p => p.1 != "sid") ∧
    TerminalManager.get_session
        (TerminalManager.remove_session connMgr "sid" connWorld).1 "sid" = none ∧
    (connSess.is_connected = false →
      (TerminalManager.remove_session connMgr "sid" connWorld).2 = connWorld) ∧
    (∀ hid, connSess.is_connected = true → connSess.connection = some hid →
      (TerminalManager.remove_session connMgr "sid" connWorld).2 = emuDisconnect connWorld hid) :=
  remove_session_conditional_disconnect connMgr "sid" connWorld connSess (by decide)

/-- Existential form of the failed-connect shape (helper). -/
theorem connect_fail_parts (s : TerminalSession) (w : DriverWorld)
    (h : w.cfg.connectFails = true) :
    ∃ e w1, TerminalSession.connect s w =
      (PyResult.exn e, { s with connection := some w.nextId }, w1) :=
  ⟨_, _, connect_fail_shape s w h⟩

/-- Claim C8 counterexample: when `connect()` fails inside the `/connect`
endpoint, the endpoint returns HTTP 500 but the partially-created session
is LEFT in the registry (still holding its allocated handle), not removed. -/
theorem connect_endpoint_retains_failed_session :
    failedConnectRun.1 = ConnResult.httpError 500
      "Failed to connect to mainframe.example:992 - Connection failed: L:mainframe.example:992" ∧
    (TerminalManager.get_session failedConnectRun.2.1 "sid").isSome = true := by
  exact ⟨by decide, by decide⟩

/-- Claim C8 (amended): a failed connect in the script-execution path does
remove the partially-created session from the registry, but in the
`/connect` endpoint the partially-created session (holding the allocated
handle, connected flag false) remains registered; and a failed
non-DISCONNECT step leaves the session object — hence its connected flag —
unchanged (no auto-disconnect on step failure). -/
theorem connect_failure_paths (w : DriverWorld) (m : TerminalManager)
    (fresh : String) (script : AutomationScript) (req : ConnectionRequest)
    (hc : w.cfg.connectFails = true)
    (hf : TerminalManager.get_session m fresh = none) :
    (∃ e m2 w2, execute_script w m fresh script = (ExecResult.httpError 500 e, m2, w2) ∧
       TerminalManager.get_session m2 fresh = none) ∧
    (∃ e m2 w2, connect_terminal w m fresh req = (ConnResult.httpError 500 e, m2, w2) ∧
       ∃ s2, TerminalManager.get_session m2 fresh = some s2 ∧
         s2.connection = some w.nextId ∧ s2.is_connected = false) ∧
    (∀ wx sx step, step.action ≠ ActionType.disconnect →
       (execute_step wx sx step).2.1 = sx) := by
  refine ⟨?_, ?_, ?_⟩
  · have hg := get_session_create m fresh script.host script.port script.use_tls hf
    have hg2 : TerminalManager.get_session
        { sessions := m.sessions ++
            [(fresh, ⟨fresh, script.host, script.port, script.use_tls, none, false⟩)] } fresh =
        some ⟨fresh, script.host, script.port, script.use_tls, none, false⟩ := by
      simpa [TerminalManager.create_session] using hg
    obtain ⟨e, w1, hcf⟩ :=
      connect_fail_parts ⟨fresh, script.host, script.port, script.use_tls, none, false⟩ w hc
    refine ⟨e, ?m2, ?w2, ?heq, ?hnone⟩
    case heq =>
      dsimp only [execute_script, TerminalManager.create_session]
      rw [hg2]
      dsimp only
      rw [hcf]
      exact rfl
    case hnone => exact get_session_remove _ _ _
  · have hg := get_session_create m fresh req.host req.port req.use_tls hf
    have hg2 : TerminalManager.get_session
        { sessions := m.sessions ++
            [(fresh, ⟨fresh, req.host, req.port, req.use_tls, none, false⟩)] } fresh =
        some ⟨fresh, req.host, req.port, req.use_tls, none, false⟩ := by
      simpa [TerminalManager.create_session] using hg
    obtain ⟨e, w1, hcf⟩ :=
      connect_fail_parts ⟨fresh, req.host, req.port, req.use_tls, none, false⟩ w hc
    refine ⟨e, ?n2, ?v2, ?heqc, ?hsome⟩
    case heqc =>
      dsimp only [connect_terminal, TerminalManager.create_session]
      rw [hg2]
      dsimp only
      rw [hcf]
      exact rfl
    case hsome =>
      refine ⟨⟨fresh, req.host, req.port, req.use_tls, some w.nextId, false⟩, ?_, rfl, rfl⟩
      rw [get_session_update, hg2]
      exact rfl
  · exact fun wx sx step hstep => execute_step_session_unchanged wx sx step hstep

/-- Claim C8 witness: the two connect-failure paths evaluated against the
failing driver, with the no-auto-disconnect clause. -/
theorem connect_failure_paths_witness :
    (∃ e m2 w2, execute_script (emptyWorld connectFailCfg) ⟨[]⟩ "sid" script1 =
        (ExecResult.httpError 500 e, m2, w2) ∧
       TerminalManager.get_session m2 "sid" = none) ∧
    (∃ e m2 w2, connect_terminal (emptyWorld connectFailCfg) ⟨[]⟩ "sid"
          ⟨"mainframe.example", 992, true⟩ = (ConnResult.httpError 500 e, m2, w2) ∧
       ∃ s2, TerminalManager.get_session m2 "sid" = some s2 ∧
         s2.connection = some (emptyWorld connectFailCfg).nextId ∧ s2.is_connected = false) ∧
    (∀ wx sx step, step.action ≠ ActionType.disconnect →
       (execute_step wx sx step).2.1 = sx) :=
  connect_failure_paths (emptyWorld connectFailCfg) ⟨[]⟩ "sid" script1
    ⟨"mainframe.example", 992, true⟩ rfl rfl

/-- Claim C9 counterexample: "pause" is outside the recognized key set but
is NOT passed through verbatim: the pa-prefix branch parses "use" with
int(), which raises ValueError, and no driver call at all is made. -/
theorem send_key_pause_raises_instead_of_passthrough :
    (TerminalSession.send_key connSess connWorld "pause").1 =
      PyResult.exn "invalid literal for int() with base 10: \x27use\x27" ∧
    (TerminalSession.send_key connSess connWorld "pause").2.2.trace = connWorld.trace := by
  exact ⟨by decide, by decide⟩

/-- Claim C9 (amended): send_key dispatches case-insensitively on the
lower-cased name: "enter", "clear", "tab" and "backtab" map to their
driver calls; a lower-cased name starting with "pf" (resp. "pa") has its
remainder parsed by int() and maps to PF(n) / PA(n) for ANY integer n (not
only pf1..pf12 / pa1..pa3), raising ValueError with no driver call when
the remainder is not an integer; only names matching none of these cases
are passed through — as the ORIGINAL, un-lowered string — to the driver's
Key method. -/
theorem send_key_mapping (s : TerminalSession) (w : DriverWorld) (hid : Nat)
    (key : String) (h : s.connection = some hid) :
    (pyLower key = "enter" →
      TerminalSession.send_key s w key = TerminalSession.liftE s (emuEnter w hid)) ∧
    (pyStartsWith (pyLower key) "pf" = true →
      (∀ n, pyInt? (pyDrop (pyLower key) 2) = some n →
        TerminalSession.send_key s w key = TerminalSession.liftE s (emuPF w hid n)) ∧
      (pyInt? (pyDrop (pyLower key) 2) = none →
        TerminalSession.send_key s w key =
          (PyResult.exn ("invalid literal for int() with base 10: \x27" ++
             pyDrop (pyLower key) 2 ++ "\x27"), s, w))) ∧
    (pyStartsWith (pyLower key) "pf" = false → pyStartsWith (pyLower key) "pa" = true →
      (∀ n, pyInt? (pyDrop (pyLower key) 2) = some n →
        TerminalSession.send_key s w key = TerminalSession.liftE s (emuPA w hid n)) ∧
      (pyInt? (pyDrop (pyLower key) 2) = none →
        TerminalSession.send_key s w key =
          (PyResult.exn ("invalid literal for int() with base 10: \x27" ++
             pyDrop (pyLower key) 2 ++ "\x27"), s, w))) ∧
    (pyLower key = "clear" →
      TerminalSession.send_key s w key = TerminalSession.liftE s (emuClear w hid)) ∧
    (pyLower key = "tab" →
      TerminalSession.send_key s w key = TerminalSession.liftE s (emuTab w hid)) ∧
    (pyLower key = "backtab" →
      TerminalSession.send_key s w key = TerminalSession.liftE s (emuBackTab w hid)) ∧
    (pyLower key ≠ "enter" → pyStartsWith (pyLower key) "pf" = false →
     pyStartsWith (pyLower key) "pa" = false → pyLower key ≠ "clear" →
     pyLower key ≠ "tab" → pyLower key ≠ "backtab" →
      TerminalSession.send_key s w key = TerminalSession.liftE s (emuKey w hid key)) := by
  refine ⟨?_, ?_, ?_, ?_, ?_, ?_, ?_⟩
  · intro h1
    unfold TerminalSession.send_key
    rw [h]
    simp [h1]
  · intro hpf
    have hne : pyLower key ≠ "enter" := by
      intro hh
      rw [hh] at hpf
      exact absurd hpf (by decide)
    constructor
    · intro n hn
      unfold TerminalSession.send_key
      rw [h]
      simp [hne, hpf, hn]
    · intro hn
      unfold TerminalSession.send_key
      rw [h]
      simp [hne, hpf, hn]
  · intro hpf hpa
    have hne : pyLower key ≠ "enter" := by
      intro hh
      rw [hh] at hpa
      exact absurd hpa (by decide)
    constructor
    · intro n hn
      unfold TerminalSession.send_key
      rw [h]
      simp [hne, hpf, hpa, hn]
    · intro hn
      unfold TerminalSession.send_key
      rw [h]
      simp [hne, hpf, hpa, hn]
  · intro h1
    unfold TerminalSession.send_key
    rw [h]
    simp [h1]
    exact rfl
  · intro h1
    unfold TerminalSession.send_key
    rw [h]
    simp [h1]
    exact rfl
  · intro h1
    unfold TerminalSession.send_key
    rw [h]
    simp [h1]
    exact rfl
  · intro hne hpf hpa hcl hta hba
    unfold TerminalSession.send_key
    rw [h]
    simp [hne, hpf, hpa, hcl, hta, hba]

/-- Claim C9 witness: the mapping evaluated on "PF13" — case-insensitive
dispatch and a PF number outside the documented 1..12 range. -/
theorem send_key_mapping_witness :
    TerminalSession.send_key connSess connWorld "PF13" =
      TerminalSession.liftE connSess (emuPF connWorld 0 13) :=
  ((send_key_mapping connSess connWorld 0 "PF13" rfl).2.1 (by decide)).1 13 (by decide)
